import Mathlib

/-!
Shallow embedding of the `global-news` Cloudflare-worker news proxy.

The repository holds three editions of the worker:
- `src/unnamed/part_000` — "Final Double Failover Edition" (GNews → NewsAPI),
  whose header comment says it fixes the GNews 400 endpoint-selection bug;
- `src/worker-source/worker.js`, first document — "Final Failover Edition"
  (GNews → NewsAPI); its GNews adapter has no credential check and no
  server-side key at all (namespace `WorkerV1` below);
- `src/worker-source/worker.js`, second document — "Final Triple Failover
  Edition" (Bing → GNews → NewsAPI) (namespace `WorkerV3` below).

JavaScript `fetch` is modelled as a function from the outbound call the
adapter builds (URL, query parameters, headers) to `Option HttpResponse`,
where `none` models the fetch promise rejecting (a transport failure).
Each adapter returns the attempt outcome together with the list of outbound
calls it issued, so call-count claims can be stated.  An adapter outcome of
`none` models an exception propagating out of the adapter uncaught.
-/

namespace GlobalNews

/-- JavaScript truthiness of a string-or-null/undefined value:
`null`, `undefined` and the empty string are falsy. -/
def truthy : Option String → Bool
  | none => false
  | some s => s != ""

/-- JavaScript `a || b` where `a` is a possibly-missing string and `b` a
string: returns `a` when it is present and truthy, else `b`. -/
def jsOrS (a : Option String) (b : String) : String :=
  match a with
  | none => b
  | some s => if s != "" then s else b

/-- Rendering of a possibly-undefined string inside a JS template literal:
`undefined` prints as the text "undefined". -/
def jsTemplateOpt : Option String → String
  | none => "undefined"
  | some s => s

/-- The credential precondition used by the adapters:
`typeof KEY === 'undefined' || KEY.length < 5`. -/
def credentialMissing : Option String → Bool
  | none => true
  | some k => k.length < 5

/-- `URLSearchParams.set`: overwrite the value of an existing key in place,
otherwise append the pair at the end. -/
def setParam (ps : List (String × String)) (k v : String) : List (String × String) :=
  if ps.any (fun p => p.1 == k) then
    ps.map (fun p => if p.1 == k then (k, v) else p)
  else
    ps ++ [(k, v)]

/-- `URLSearchParams.delete`. -/
def delParam (ps : List (String × String)) (k : String) : List (String × String) :=
  ps.filter (fun p => p.1 != k)

/-- Whether the parameter list (hence the serialized URL query string)
carries a parameter with this name. -/
def hasParam (ps : List (String × String)) (k : String) : Bool :=
  ps.any (fun p => p.1 == k)

/-- First-match lookup in a name/value list. -/
def lookupParam (ps : List (String × String)) (k : String) : Option String :=
  match ps with
  | [] => none
  | p :: t => if p.1 == k then some p.2 else lookupParam t k

/-- Lowercasing of a header name (the `Headers` class is
case-insensitive and normalizes names to lowercase). -/
def lowerStr (s : String) : String :=
  String.mk (s.data.map Char.toLower)

/-- `Headers.set`: header names are case-insensitive, stored lowercased;
an existing entry is overwritten in place, otherwise the pair is appended. -/
def headerSet (hs : List (String × String)) (k v : String) : List (String × String) :=
  if hs.any (fun p => p.1 == lowerStr k) then
    hs.map (fun p => if p.1 == lowerStr k then (lowerStr k, v) else p)
  else
    hs ++ [(lowerStr k, v)]

/-- `Headers.delete` (case-insensitive). -/
def headerDelete (hs : List (String × String)) (k : String) : List (String × String) :=
  hs.filter (fun p => p.1 != lowerStr k)

/-- `Headers.get` (case-insensitive). -/
def headerGet (hs : List (String × String)) (k : String) : Option String :=
  lookupParam hs (lowerStr k)

/-- Whether the character list `needle` is a prefix of `hay`. -/
def charsStartWith : List Char → List Char → Bool
  | _, [] => true
  | [], _ :: _ => false
  | a :: as, b :: bs => a == b && charsStartWith as bs

/-- Whether the character list `needle` occurs contiguously inside `hay`. -/
def charsContain : List Char → List Char → Bool
  | [], needle => charsStartWith [] needle
  | h :: t, needle => charsStartWith (h :: t) needle || charsContain t needle

/-- Substring containment on strings. -/
def strContains (hay needle : String) : Bool :=
  charsContain hay.data needle.data

/-- The three provider identities, in the Triple edition's priority order. -/
inductive Provider where
  | bing
  | gnews
  | newsapi
deriving DecidableEq, Repr

/-- The three caller-facing filters extracted from the inbound URL:
`country`, `topic` and `q`; each is `null` when absent. -/
structure CanonicalQuery where
  country : Option String
  topic : Option String
  query : Option String
deriving DecidableEq, Repr

/-- A Bing payload item's `image.thumbnail` object. -/
structure BingThumbnail where
  contentUrl : Option String
deriving DecidableEq, Repr

/-- A Bing payload item's `image` object. -/
structure BingImage where
  thumbnail : Option BingThumbnail
deriving DecidableEq, Repr

/-- One entry of a Bing payload item's `provider` array. -/
structure BingProviderInfo where
  name : Option String
deriving DecidableEq, Repr

/-- One item of the Bing News `value` array; every field may be absent. -/
structure BingItem where
  name : Option String
  description : Option String
  url : Option String
  image : Option BingImage
  datePublished : Option String
  provider : Option (List BingProviderInfo)
deriving DecidableEq, Repr

/-- The parsed JSON body of a successful Bing News response. -/
structure BingPayload where
  value : Option (List BingItem)
deriving DecidableEq, Repr

/-- The `source` object of a canonical article. -/
structure ArticleSource where
  name : String
deriving DecidableEq, Repr

/-- The canonical article shape the Bing normalizer produces. -/
structure Article where
  title : Option String
  description : Option String
  url : Option String
  image : Option String
  publishedAt : Option String
  source : ArticleSource
deriving DecidableEq, Repr

/-- A response body: either the provider's byte stream passed through,
or a JSON body the worker itself serializes
(`JSON.stringify ... errors: [...message...] ...` or
`JSON.stringify ... articles: [...] ...`). -/
inductive RespBody where
  | passthrough (bytes : String)
  | errorsJson (messages : List String)
  | articlesJson (articles : List Article)
deriving DecidableEq, Repr

/-- An HTTP response as the worker sees it.  `headers` are stored with
lowercased names (the `Headers` class is case-insensitive).  The `json*`
fields model what `await resp.json()` yields when the body is read for
error details, already accounting for `.catch` on parse failure, and
`bingPayload` models the parsed body of a Bing data response
(`none` models `resp.json()` rejecting). -/
structure HttpResponse where
  status : Nat
  headers : List (String × String)
  body : RespBody
  jsonCode : Option String
  jsonMessage : Option String
  jsonErrorsFirstMessage : Option String
  bingPayload : Option BingPayload
deriving DecidableEq, Repr

/-- `Response.ok`: status in the 2xx range. -/
def respOk (status : Nat) : Bool :=
  200 ≤ status && status < 300

/-- The outcome object an adapter returns: `status, response` on a
usable outcome, `status, failed: true, message?` on a failed one. -/
inductive AttemptResult where
  | usable (status : Nat) (response : HttpResponse)
  | failed (status : Nat) (message : Option String)
deriving DecidableEq, Repr

/-- One outbound `fetch` call: target URL, query parameters, headers. -/
structure FetchCall where
  url : String
  params : List (String × String)
  headers : List (String × String)
deriving DecidableEq, Repr

/-- The transport behaviour: what each outbound call resolves to;
`none` models the fetch promise rejecting. -/
def FetchImpl : Type :=
  FetchCall → Option HttpResponse

/-- The worker's secret bindings; `none` models
`typeof KEY === 'undefined'`. -/
structure Env where
  GNEWS_API_KEY : Option String
  NEWS_API_KEY : Option String
  BING_NEWS_API_KEY : Option String
deriving DecidableEq, Repr

def GNEWS_API_URL : String := "https://gnews.io/api/v4/top-headlines"
def GNEWS_SEARCH_URL : String := "https://gnews.io/api/v4/search"
def NEWSAPI_URL : String := "https://newsapi.org/v2/top-headlines"
def NEWSAPI_SEARCH_URL : String := "https://newsapi.org/v2/everything"
def BING_NEWS_URL : String := "https://api.bing.microsoft.com/v7.0/news/search"

def NEWSAPI_HEADERS : List (String × String) :=
  [("user-agent", "news-aggregator-app-v1")]

def GNEWS_SORT : String := "publishedAt"
def NEWSAPI_SORT : String := "publishedAt"

/-- Bing authentication headers (`BING_HEADERS` in the source). -/
def BING_HEADERS (apiKey : String) : List (String × String) :=
  [("ocp-apim-subscription-key", apiKey), ("user-agent", "news-aggregator-app-v1")]

/-- `buildResponse`, identical in every edition: relay status and body,
force the CORS headers, strip the stale framing headers. -/
def buildResponse (r : HttpResponse) : HttpResponse :=
  let h := headerSet r.headers "Access-Control-Allow-Origin" "*"
  let h := headerSet h "Access-Control-Allow-Methods" "GET, HEAD, POST, OPTIONS"
  let h := headerDelete h "Content-Encoding"
  let h := headerDelete h "Content-Length"
  let h := headerDelete h "Transfer-Encoding"
  { r with headers := h }

/-- `buildErrorResponse`, identical in every edition:
`JSON.stringify` of `errors: [ message ]` with a lone CORS header. -/
def buildErrorResponse (message : String) (status : Nat) : HttpResponse :=
  { status := status
    headers := headerSet [] "Access-Control-Allow-Origin" "*"
    body := RespBody.errorsJson [message]
    jsonCode := none
    jsonMessage := none
    jsonErrorsFirstMessage := none
    bingPayload := none }

/-- GNews response classification shared verbatim by `part_000` and the
Triple edition: pass the response through unless the status is 429 or 403. -/
def gnewsClassify (resp : HttpResponse) : AttemptResult :=
  if respOk resp.status || (resp.status != 429 && resp.status != 403) then
    AttemptResult.usable resp.status resp
  else
    AttemptResult.failed resp.status
      (some ("GNews API 错误 (" ++ toString resp.status ++ ")"))

namespace Part000

/-- Request construction of `fetchNewsFromGNews` in `src/unnamed/part_000`
(the "修复 GNews 400 核心 Bug" edition), after the credential check passed:
base parameters, endpoint selection that removes the parameters the chosen
GNews endpoint does not accept, and the cn/hk × topic country drop. -/
def gnewsRequest (key : String) (q : CanonicalQuery) : FetchCall :=
  let ps := setParam (setParam [] "sortby" GNEWS_SORT) "token" key
  let ps := if truthy q.country then setParam ps "country" (q.country.getD "") else ps
  let ps := if truthy q.topic then setParam ps "topic" (q.topic.getD "") else ps
  let ps := if truthy q.query then setParam ps "q" (q.query.getD "") else ps
  let ep :=
    if truthy q.query then
      (GNEWS_SEARCH_URL, delParam ps "topic")
    else if truthy q.topic then
      (GNEWS_API_URL, delParam ps "q")
    else
      (GNEWS_API_URL, delParam (delParam ps "q") "topic")
  let ps :=
    if (q.country == some "cn" || q.country == some "hk") && truthy q.topic then
      delParam ep.2 "country"
    else
      ep.2
  { url := ep.1, params := ps, headers := [] }

/-- `fetchNewsFromGNews` of `src/unnamed/part_000`.  The `fetch` is not
wrapped in `try`/`catch`, so a rejecting fetch (modelled by the fetch
behaviour returning `none`) propagates out of the adapter uncaught
(outcome `none`). -/
def fetchNewsFromGNews (env : Env) (q : CanonicalQuery) (f : FetchImpl) :
    Option AttemptResult × List FetchCall :=
  if credentialMissing env.GNEWS_API_KEY then
    (some (AttemptResult.failed 500 (some "GNews API Key 未配置")), [])
  else
    let call := gnewsRequest (env.GNEWS_API_KEY.getD "") q
    match f call with
    | none => (none, [call])
    | some resp => (some (gnewsClassify resp), [call])

/-- Request construction of `fetchNewsFromNewsAPI` in `src/unnamed/part_000`
after the credential check passed. -/
def newsApiRequest (key : String) (q : CanonicalQuery) : FetchCall :=
  let ps := setParam (setParam [] "apiKey" key) "sortBy" NEWSAPI_SORT
  if truthy q.query ||
      (truthy q.topic && q.topic != some "business" && q.topic != some "technology") then
    let fullQuery := jsOrS q.query ""
    let fullQuery :=
      if truthy q.topic then
        fullQuery ++ (if fullQuery != "" then " AND " else "") ++
          (match q.topic.getD "" with
           | "business" => "business"
           | "technology" => "technology"
           | "crypto" => "cryptocurrency OR bitcoin"
           | t => t)
      else fullQuery
    let ps := setParam ps "q" fullQuery
    let ps :=
      if q.country == some "cn" || q.country == some "hk" then
        setParam ps "language" "zh"
      else ps
    { url := NEWSAPI_SEARCH_URL, params := ps, headers := NEWSAPI_HEADERS }
  else if truthy q.topic && (q.topic == some "business" || q.topic == some "technology") then
    let ps := if truthy q.country then setParam ps "country" (q.country.getD "") else ps
    let ps := setParam ps "category" (q.topic.getD "")
    { url := NEWSAPI_URL, params := ps, headers := NEWSAPI_HEADERS }
  else
    let ps := if truthy q.country then setParam ps "country" (q.country.getD "") else ps
    { url := NEWSAPI_URL, params := ps, headers := NEWSAPI_HEADERS }

/-- NewsAPI response classification, shared verbatim by every edition:
2xx passes through; otherwise a diagnostic is built from the parsed error
body when it carries truthy `code` and `message` fields. -/
def newsApiClassify (resp : HttpResponse) : AttemptResult :=
  if respOk resp.status then
    AttemptResult.usable resp.status resp
  else
    let debugMessage :=
      if truthy resp.jsonCode && truthy resp.jsonMessage then
        "News API 错误：[" ++ jsTemplateOpt resp.jsonCode ++ "] " ++
          jsTemplateOpt resp.jsonMessage
      else
        "News API 失败 (" ++ toString resp.status ++ ")。"
    AttemptResult.failed resp.status (some debugMessage)

/-- `fetchNewsFromNewsAPI` of `src/unnamed/part_000`.  The fetch is inside
`try`/`catch`: a rejecting fetch becomes `Failed` with status 503 and the
transport diagnostic. -/
def fetchNewsFromNewsAPI (env : Env) (q : CanonicalQuery) (f : FetchImpl) :
    Option AttemptResult × List FetchCall :=
  if credentialMissing env.NEWS_API_KEY then
    (some (AttemptResult.failed 500 (some "News API Key 未配置")), [])
  else
    let call := newsApiRequest (env.NEWS_API_KEY.getD "") q
    match f call with
    | none =>
        (some (AttemptResult.failed 503 (some "News API 网络连接超时或 DNS 失败。")), [call])
    | some resp => (some (newsApiClassify resp), [call])

/-- `handleRequest` of `src/unnamed/part_000`: GNews first, NewsAPI on
failure, aggregated error naming both sources but interpolating only the
last `result.message`.  Besides the final response (or `none` for an
uncaught exception) it returns the list of providers whose adapters were
invoked, in invocation order. -/
def handleRequest (env : Env) (country topic query : Option String) (f : FetchImpl) :
    Option HttpResponse × List Provider :=
  match (fetchNewsFromGNews env ⟨country, topic, query⟩ f).1 with
  | none => (none, [Provider.gnews])
  | some (AttemptResult.usable _ resp) =>
      (some (buildResponse resp), [Provider.gnews])
  | some (AttemptResult.failed _ _) =>
    match (fetchNewsFromNewsAPI env ⟨country, topic, query⟩ f).1 with
    | none => (none, [Provider.gnews, Provider.newsapi])
    | some (AttemptResult.usable _ resp) =>
        (some (buildResponse resp), [Provider.gnews, Provider.newsapi])
    | some (AttemptResult.failed _ m) =>
        (some (buildErrorResponse
          ("所有 API 源均失败。GNews/News API 错误: " ++ jsTemplateOpt m) 503),
         [Provider.gnews, Provider.newsapi])

end Part000

namespace WorkerV1

/-- GNews response classification of the first document's adapter: same
429/403 rule as the other editions, but its failed outcome carries no
message field. -/
def gnewsClassify (resp : HttpResponse) : AttemptResult :=
  if respOk resp.status || (resp.status != 429 && resp.status != 403) then
    AttemptResult.usable resp.status resp
  else
    AttemptResult.failed resp.status none

/-- `fetchNewsFromGNews` of the first document of
`src/worker-source/worker.js` ("Final Failover Edition").  It receives the
inbound URL's raw search parameters, adds only the sort directive, picks
the endpoint from the free-text query alone, and issues the fetch with no
credential check and no `try`/`catch`.  Its failed outcome carries no
message. -/
def fetchNewsFromGNews (queryParams : List (String × String)) (query : Option String)
    (f : FetchImpl) : Option AttemptResult × List FetchCall :=
  let ps := setParam queryParams "sortby" GNEWS_SORT
  let call : FetchCall :=
    { url := if truthy query then GNEWS_SEARCH_URL else GNEWS_API_URL
      params := ps
      headers := [] }
  match f call with
  | none => (none, [call])
  | some resp => (some (gnewsClassify resp), [call])

/-- Request construction of `fetchNewsFromNewsAPI` in the first document of
`src/worker-source/worker.js` after the credential check passed: any query
or topic routes to the `everything` endpoint, with the topic appended to
the free-text query verbatim (no topic map in this edition). -/
def newsApiRequest (key : String) (q : CanonicalQuery) : FetchCall :=
  let ps := setParam (setParam [] "apiKey" key) "sortBy" NEWSAPI_SORT
  if truthy q.query || truthy q.topic then
    let fullQuery := jsOrS q.query ""
    let fullQuery :=
      if truthy q.topic then
        fullQuery ++ (if fullQuery != "" then " AND " else "") ++ q.topic.getD ""
      else fullQuery
    let ps := setParam ps "q" fullQuery
    let ps :=
      if q.country == some "cn" || q.country == some "hk" then
        setParam ps "language" "zh"
      else ps
    { url := NEWSAPI_SEARCH_URL, params := ps, headers := NEWSAPI_HEADERS }
  else
    let ps := if truthy q.country then setParam ps "country" (q.country.getD "") else ps
    let ps := if truthy q.topic then setParam ps "category" (q.topic.getD "") else ps
    { url := NEWSAPI_URL, params := ps, headers := NEWSAPI_HEADERS }

/-- `fetchNewsFromNewsAPI` of the first document of
`src/worker-source/worker.js`; classification identical to `part_000`. -/
def fetchNewsFromNewsAPI (env : Env) (q : CanonicalQuery) (f : FetchImpl) :
    Option AttemptResult × List FetchCall :=
  if credentialMissing env.NEWS_API_KEY then
    (some (AttemptResult.failed 500 (some "News API Key 未配置")), [])
  else
    let call := newsApiRequest (env.NEWS_API_KEY.getD "") q
    match f call with
    | none =>
        (some (AttemptResult.failed 503 (some "News API 网络连接超时或 DNS 失败。")), [call])
    | some resp => (some (Part000.newsApiClassify resp), [call])

end WorkerV1

namespace WorkerV3

/-- Bing market lookup `mktMap[country]`; an absent or unmapped country
yields `undefined`. -/
def mktLookup : Option String → Option String
  | some "us" => some "en-US"
  | some "gb" => some "en-GB"
  | some "cn" => some "zh-CN"
  | some "hk" => some "zh-HK"
  | some "jp" => some "ja-JP"
  | some "kr" => some "ko-KR"
  | some "sg" => some "en-SG"
  | some "in" => some "en-IN"
  | some "de" => some "de-DE"
  | _ => none

/-- Bing topic rewriting `topicMap[topic] || topic`. -/
def bingTopicMap (t : String) : String :=
  match t with
  | "business" => "finance OR business"
  | "technology" => "tech OR technology"
  | "crypto" => "cryptocurrency OR bitcoin"
  | _ => t

/-- Request construction of `fetchNewsFromBing` in the Triple edition after
the credential check passed. -/
def bingRequest (key : String) (q : CanonicalQuery) : FetchCall :=
  let ps := setParam [] "sortBy" "Date"
  let ps := setParam ps "mkt" (jsOrS (mktLookup q.country) "en-US")
  let finalQuery := jsOrS q.query ""
  let finalQuery :=
    if truthy q.topic then
      finalQuery ++ (if finalQuery != "" then " AND " else "") ++ bingTopicMap (q.topic.getD "")
    else finalQuery
  let ps := setParam ps "q" (if finalQuery != "" then finalQuery else "world news")
  { url := BING_NEWS_URL, params := ps, headers := BING_HEADERS key }

/-- Field-by-field normalization of one Bing `value` item to the canonical
article shape; optional chains become `Option.bind`, and the `||` fallback
on the provider name follows JS truthiness (an empty name also falls back
to "Bing News"). -/
def normalizeBingItem (item : BingItem) : Article :=
  { title := item.name
    description := item.description
    url := item.url
    image := (item.image.bind (fun i => i.thumbnail)).bind (fun t => t.contentUrl)
    publishedAt := item.datePublished
    source := { name := jsOrS ((item.provider.bind (fun l => l.head?)).bind (fun p => p.name))
                          "Bing News" } }

/-- `(bingData.value || []).map(...)`: the canonical article list built
from a parsed Bing payload. -/
def bingArticles (payload : BingPayload) : List Article :=
  (payload.value.getD []).map normalizeBingItem

/-- `fetchNewsFromBing` of the Triple edition.  The fetch and the JSON
parse sit inside `try`/`catch`, so a rejecting fetch — or a rejecting
`json()` on the success path — becomes `Failed` 503 with the transport
diagnostic.  On success a fresh 200 response is built whose body is the
serialized `articles` array. -/
def fetchNewsFromBing (env : Env) (q : CanonicalQuery) (f : FetchImpl) :
    Option AttemptResult × List FetchCall :=
  if credentialMissing env.BING_NEWS_API_KEY then
    (some (AttemptResult.failed 500 (some "Bing News API Key 未配置")), [])
  else
    let call := bingRequest (env.BING_NEWS_API_KEY.getD "") q
    match f call with
    | none =>
        (some (AttemptResult.failed 503 (some "Bing News API 网络连接失败或超时。")), [call])
    | some resp =>
      if respOk resp.status then
        match resp.bingPayload with
        | none =>
            (some (AttemptResult.failed 503 (some "Bing News API 网络连接失败或超时。")), [call])
        | some payload =>
            (some (AttemptResult.usable 200
              { status := 200
                headers := [("content-type", "text/plain;charset=UTF-8")]
                body := RespBody.articlesJson (bingArticles payload)
                jsonCode := none
                jsonMessage := none
                jsonErrorsFirstMessage := none
                bingPayload := none }), [call])
      else
        let errorMsg :=
          jsOrS resp.jsonErrorsFirstMessage
            (jsOrS resp.jsonMessage
              ("Bing API failed with status " ++ toString resp.status))
        (some (AttemptResult.failed resp.status
          (some ("Bing News API 错误: " ++ errorMsg))), [call])

/-- Request construction of `fetchNewsFromGNews` in the Triple edition
after the credential check passed: all three caller parameters are kept,
and any query or topic routes to the search endpoint (the behaviour
`part_000`'s header comment calls the "GNews 400 核心 Bug"). -/
def gnewsRequest (key : String) (q : CanonicalQuery) : FetchCall :=
  let ps := setParam (setParam [] "sortby" GNEWS_SORT) "token" key
  let ps := if truthy q.country then setParam ps "country" (q.country.getD "") else ps
  let ps := if truthy q.topic then setParam ps "topic" (q.topic.getD "") else ps
  let ps := if truthy q.query then setParam ps "q" (q.query.getD "") else ps
  { url := if truthy q.query || truthy q.topic then GNEWS_SEARCH_URL else GNEWS_API_URL
    params := ps
    headers := [] }

/-- `fetchNewsFromGNews` of the Triple edition: credential check, request
construction, plain `fetch` with no `try`/`catch`, 429/403 classification. -/
def fetchNewsFromGNews (env : Env) (q : CanonicalQuery) (f : FetchImpl) :
    Option AttemptResult × List FetchCall :=
  if credentialMissing env.GNEWS_API_KEY then
    (some (AttemptResult.failed 500 (some "GNews API Key 未配置")), [])
  else
    let call := gnewsRequest (env.GNEWS_API_KEY.getD "") q
    match f call with
    | none => (none, [call])
    | some resp => (some (gnewsClassify resp), [call])

/-- Request construction of `fetchNewsFromNewsAPI` in the Triple edition
after the credential check passed (topic map present, any query or topic
routes to the `everything` endpoint). -/
def newsApiRequest (key : String) (q : CanonicalQuery) : FetchCall :=
  let ps := setParam (setParam [] "apiKey" key) "sortBy" NEWSAPI_SORT
  if truthy q.query || truthy q.topic then
    let fullQuery := jsOrS q.query ""
    let fullQuery :=
      if truthy q.topic then
        fullQuery ++ (if fullQuery != "" then " AND " else "") ++
          (match q.topic.getD "" with
           | "business" => "business"
           | "technology" => "technology"
           | "crypto" => "cryptocurrency OR bitcoin"
           | t => t)
      else fullQuery
    let ps := setParam ps "q" fullQuery
    let ps :=
      if q.country == some "cn" || q.country == some "hk" then
        setParam ps "language" "zh"
      else ps
    { url := NEWSAPI_SEARCH_URL, params := ps, headers := NEWSAPI_HEADERS }
  else
    let ps := if truthy q.country then setParam ps "country" (q.country.getD "") else ps
    let ps := if truthy q.topic then setParam ps "category" (q.topic.getD "") else ps
    { url := NEWSAPI_URL, params := ps, headers := NEWSAPI_HEADERS }

/-- `fetchNewsFromNewsAPI` of the Triple edition; classification identical
to `part_000`. -/
def fetchNewsFromNewsAPI (env : Env) (q : CanonicalQuery) (f : FetchImpl) :
    Option AttemptResult × List FetchCall :=
  if credentialMissing env.NEWS_API_KEY then
    (some (AttemptResult.failed 500 (some "News API Key 未配置")), [])
  else
    let call := newsApiRequest (env.NEWS_API_KEY.getD "") q
    match f call with
    | none =>
        (some (AttemptResult.failed 503 (some "News API 网络连接超时或 DNS 失败。")), [call])
    | some resp => (some (Part000.newsApiClassify resp), [call])

/-- `handleRequest` of the Triple edition: Bing, then GNews, then NewsAPI,
stopping at the first non-failed outcome; when all three fail the error body
names all three sources but interpolates only the last `result.message`. -/
def handleRequest (env : Env) (country topic query : Option String) (f : FetchImpl) :
    Option HttpResponse × List Provider :=
  match (fetchNewsFromBing env ⟨country, topic, query⟩ f).1 with
  | none => (none, [Provider.bing])
  | some (AttemptResult.usable _ resp) =>
      (some (buildResponse resp), [Provider.bing])
  | some (AttemptResult.failed _ _) =>
    match (fetchNewsFromGNews env ⟨country, topic, query⟩ f).1 with
    | none => (none, [Provider.bing, Provider.gnews])
    | some (AttemptResult.usable _ resp) =>
        (some (buildResponse resp), [Provider.bing, Provider.gnews])
    | some (AttemptResult.failed _ _) =>
      match (fetchNewsFromNewsAPI env ⟨country, topic, query⟩ f).1 with
      | none => (none, [Provider.bing, Provider.gnews, Provider.newsapi])
      | some (AttemptResult.usable _ resp) =>
          (some (buildResponse resp), [Provider.bing, Provider.gnews, Provider.newsapi])
      | some (AttemptResult.failed _ m) =>
          (some (buildErrorResponse
            ("所有 API 源均失败。Bing/GNews/News API 错误: " ++ jsTemplateOpt m) 503),
           [Provider.bing, Provider.gnews, Provider.newsapi])

end WorkerV3

/-! ## Concrete fixtures shared by the theorems below -/

/-- A bare provider response with the given status and no useful body. -/
def respPlain (status : Nat) : HttpResponse :=
  { status := status
    headers := []
    body := RespBody.passthrough ""
    jsonCode := none
    jsonMessage := none
    jsonErrorsFirstMessage := none
    bingPayload := none }

/-- A 200 response whose JSON body parses as a Bing payload with an empty
`value` array. -/
def respBingOk : HttpResponse :=
  { respPlain 200 with bingPayload := some { value := some [] } }

/-- A transport behaviour on which every provider call resolves to 429. -/
def fetchAll429 : FetchImpl := fun _ => some (respPlain 429)

/-- A transport behaviour on which every provider call rejects. -/
def fetchReject : FetchImpl := fun _ => none

/-- A transport behaviour on which every provider call resolves to the
successful Bing payload response. -/
def fetchBingOk : FetchImpl := fun _ => some respBingOk

/-- Every provider credential configured and plausible. -/
def envAllKeys : Env :=
  { GNEWS_API_KEY := some "ABCDE", NEWS_API_KEY := some "ABCDE",
    BING_NEWS_API_KEY := some "ABCDE" }

/-- No provider credential configured. -/
def envNoKeys : Env :=
  { GNEWS_API_KEY := none, NEWS_API_KEY := none, BING_NEWS_API_KEY := none }

/-- A transport behaviour on which every provider call resolves to 403. -/
def fetchAll403 : FetchImpl := fun _ => some (respPlain 403)

/-- The response `fetchNewsFromBing` constructs from the empty Bing
payload: a fresh 200 response with the serialized empty article list. -/
def respBingArticlesEmpty : HttpResponse :=
  { status := 200
    headers := [("content-type", "text/plain;charset=UTF-8")]
    body := RespBody.articlesJson []
    jsonCode := none
    jsonMessage := none
    jsonErrorsFirstMessage := none
    bingPayload := none }

/-- A Bing `value` item with every field absent. -/
def itemAllMissing : BingItem :=
  { name := none, description := none, url := none, image := none,
    datePublished := none, provider := none }

/-! ## Helper lemmas -/

theorem charsStartWith_refl (l : List Char) : charsStartWith l l = true := by
  induction l with
  | nil => rfl
  | cons a t ih => simp [charsStartWith, ih]

theorem charsContain_self (m : List Char) : charsContain m m = true := by
  cases m with
  | nil => rfl
  | cons a t => simp [charsContain, charsStartWith_refl]

theorem charsContain_append_left (p m : List Char) :
    charsContain (p ++ m) m = true := by
  induction p with
  | nil => simpa using charsContain_self m
  | cons a t ih => simp [charsContain, ih]

theorem strContains_append_right (p m : String) :
    strContains (p ++ m) m = true := by
  cases p with
  | mk pd =>
    cases m with
    | mk md =>
      show charsContain ((String.mk pd ++ String.mk md).data) md = true
      have : (String.mk pd ++ String.mk md).data = pd ++ md := rfl
      rw [this]
      exact charsContain_append_left pd md

theorem lookupParam_map_overwrite_self (hs : List (String × String)) (kl v : String)
    (h : hs.any (fun p => p.1 == kl) = true) :
    lookupParam (hs.map (fun p => if p.1 == kl then (kl, v) else p)) kl = some v := by
  induction hs with
  | nil => simp at h
  | cons a t ih =>
    by_cases ha : (a.1 == kl) = true
    · simp [lookupParam, ha]
    · have hf : (a.1 == kl) = false := eq_false_of_ne_true ha
      have ht : t.any (fun p => p.1 == kl) = true := by
        simp only [List.any_cons, hf, Bool.false_or] at h
        exact h
      simp only [List.map_cons, hf, Bool.false_eq_true, if_false, lookupParam]
      exact ih ht

theorem lookupParam_map_overwrite_other (hs : List (String × String)) (kl v k' : String)
    (h : k' ≠ kl) :
    lookupParam (hs.map (fun p => if p.1 == kl then (kl, v) else p)) k' =
      lookupParam hs k' := by
  induction hs with
  | nil => rfl
  | cons a t ih =>
    by_cases ha : (a.1 == kl) = true
    · have ha' : a.1 = kl := eq_of_beq ha
      have h1 : (kl == k') = false := beq_eq_false_iff_ne.mpr (fun e => h e.symm)
      have h2 : (a.1 == k') = false := by rw [ha']; exact h1
      simp only [List.map_cons, ha, if_true, lookupParam, h1, h2, Bool.false_eq_true,
        if_false]
      exact ih
    · have hf : (a.1 == kl) = false := eq_false_of_ne_true ha
      simp only [List.map_cons, hf, Bool.false_eq_true, if_false, lookupParam]
      by_cases hget : (a.1 == k') = true
      · simp [hget]
      · simp only [eq_false_of_ne_true hget, Bool.false_eq_true, if_false]
        exact ih

theorem lookupParam_append_single_self (hs : List (String × String)) (kl v : String)
    (h : hs.any (fun p => p.1 == kl) = false) :
    lookupParam (hs ++ [(kl, v)]) kl = some v := by
  induction hs with
  | nil => simp [lookupParam]
  | cons a t ih =>
    simp only [List.any_cons, Bool.or_eq_false_iff] at h
    simp only [List.cons_append, lookupParam, h.1, Bool.false_eq_true, if_false]
    exact ih h.2

theorem lookupParam_append_single_other (hs : List (String × String)) (kl v k' : String)
    (h : k' ≠ kl) :
    lookupParam (hs ++ [(kl, v)]) k' = lookupParam hs k' := by
  induction hs with
  | nil =>
    have h1 : (kl == k') = false := beq_eq_false_iff_ne.mpr (fun e => h e.symm)
    simp [lookupParam, h1]
  | cons a t ih =>
    simp only [List.cons_append, lookupParam]
    by_cases hget : (a.1 == k') = true
    · simp [hget]
    · simp only [eq_false_of_ne_true hget, Bool.false_eq_true, if_false]
      exact ih

theorem lookupParam_filter_self (hs : List (String × String)) (kl : String) :
    lookupParam (hs.filter (fun p => p.1 != kl)) kl = none := by
  induction hs with
  | nil => rfl
  | cons a t ih =>
    by_cases ha : (a.1 == kl) = true
    · simp only [List.filter_cons, bne, ha, Bool.not_true, Bool.false_eq_true, if_false]
      exact ih
    · have hf : (a.1 == kl) = false := eq_false_of_ne_true ha
      simp only [List.filter_cons, bne, hf, Bool.not_false, if_true, lookupParam,
        Bool.false_eq_true, if_false]
      exact ih

theorem lookupParam_filter_other (hs : List (String × String)) (kl k' : String)
    (h : k' ≠ kl) :
    lookupParam (hs.filter (fun p => p.1 != kl)) k' = lookupParam hs k' := by
  induction hs with
  | nil => rfl
  | cons a t ih =>
    by_cases ha : (a.1 == kl) = true
    · have ha' : a.1 = kl := eq_of_beq ha
      have h2 : (a.1 == k') = false := by
        rw [ha']
        exact beq_eq_false_iff_ne.mpr (fun e => h e.symm)
      simp only [List.filter_cons, bne, ha, Bool.not_true, Bool.false_eq_true, if_false,
        lookupParam, h2]
      exact ih
    · have hf : (a.1 == kl) = false := eq_false_of_ne_true ha
      simp only [List.filter_cons, bne, hf, Bool.not_false, if_true, lookupParam]
      by_cases hget : (a.1 == k') = true
      · simp [hget]
      · simp only [eq_false_of_ne_true hget, Bool.false_eq_true, if_false]
        exact ih

theorem headerGet_set_self (hs : List (String × String)) (k v : String) :
    headerGet (headerSet hs k v) k = some v := by
  unfold headerGet headerSet
  by_cases h : hs.any (fun p => p.1 == lowerStr k) = true
  · simp only [h, if_true]
    exact lookupParam_map_overwrite_self hs (lowerStr k) v h
  · have hf : hs.any (fun p => p.1 == lowerStr k) = false := eq_false_of_ne_true h
    simp only [hf, Bool.false_eq_true, if_false]
    exact lookupParam_append_single_self hs (lowerStr k) v hf

theorem headerGet_set_other (hs : List (String × String)) (k v k' : String)
    (h : lowerStr k' ≠ lowerStr k) :
    headerGet (headerSet hs k v) k' = headerGet hs k' := by
  unfold headerGet headerSet
  by_cases hx : hs.any (fun p => p.1 == lowerStr k) = true
  · simp only [hx, if_true]
    exact lookupParam_map_overwrite_other hs (lowerStr k) v (lowerStr k') h
  · simp only [eq_false_of_ne_true hx, Bool.false_eq_true, if_false]
    exact lookupParam_append_single_other hs (lowerStr k) v (lowerStr k') h

theorem headerGet_delete_self (hs : List (String × String)) (k : String) :
    headerGet (headerDelete hs k) k = none := by
  unfold headerGet headerDelete
  exact lookupParam_filter_self hs (lowerStr k)

theorem headerGet_delete_other (hs : List (String × String)) (k k' : String)
    (h : lowerStr k' ≠ lowerStr k) :
    headerGet (headerDelete hs k) k' = headerGet hs k' := by
  unfold headerGet headerDelete
  exact lookupParam_filter_other hs (lowerStr k) (lowerStr k') h

theorem gnewsCond (s : Nat) :
    (respOk s || (s != 429 && s != 403)) = !(s == 429 || s == 403) := by
  by_cases h1 : s = 429
  · subst h1; decide
  · by_cases h2 : s = 403
    · subst h2; decide
    · have b1 : (s == 429) = false := by simp [h1]
      have b2 : (s == 403) = false := by simp [h2]
      simp [bne, b1, b2]

/-! ## Claim theorems -/

/-- C4: both GNews adapters that the two final editions share classify a
response as `Failed` exactly when its HTTP status is 429 or 403; every
other status — 2xx or not — yields a `Usable` outcome carrying the
response unchanged.  The first document's GNews adapter applies the same
rule, with a message-less failed outcome. -/
theorem gnews_failed_iff_429_or_403 :
    ∀ resp : HttpResponse,
      (gnewsClassify resp =
        if resp.status = 429 ∨ resp.status = 403 then
          AttemptResult.failed resp.status
            (some ("GNews API 错误 (" ++ toString resp.status ++ ")"))
        else
          AttemptResult.usable resp.status resp) ∧
      (WorkerV1.gnewsClassify resp =
        if resp.status = 429 ∨ resp.status = 403 then
          AttemptResult.failed resp.status none
        else
          AttemptResult.usable resp.status resp) := by
  intro resp
  have hc := gnewsCond resp.status
  constructor
  · unfold gnewsClassify
    rw [hc]
    by_cases h : resp.status = 429 ∨ resp.status = 403
    · have hb : (resp.status == 429 || resp.status == 403) = true := by
        rcases h with h | h <;> simp [h]
      rw [hb]
      simp [h]
    · have hb : (resp.status == 429 || resp.status == 403) = false := by
        push_neg at h
        simp [h.1, h.2]
      rw [hb]
      simp [h]
  · unfold WorkerV1.gnewsClassify
    rw [hc]
    by_cases h : resp.status = 429 ∨ resp.status = 403
    · have hb : (resp.status == 429 || resp.status == 403) = true := by
        rcases h with h | h <;> simp [h]
      rw [hb]
      simp [h]
    · have hb : (resp.status == 429 || resp.status == 403) = false := by
        push_neg at h
        simp [h.1, h.2]
      rw [hb]
      simp [h]

/-- C5: evaluation of the two GNews request builders at the inputs where
they diverge.  The Triple edition's adapter (`WorkerV3`) sends a
topic-only query to the search endpoint with the `topic` parameter still
attached, and keeps `topic` next to `q` when both are present; the
`part_000` adapter — whose header comment calls exactly this the
"GNews 400 核心 Bug" being fixed — routes topic-only to top-headlines
without `q` and a free-text query to search without `topic`. -/
theorem gnews_endpoint_divergence_eval :
    (WorkerV3.gnewsRequest "ABCDE" ⟨none, some "technology", none⟩).url =
      GNEWS_SEARCH_URL ∧
    hasParam (WorkerV3.gnewsRequest "ABCDE" ⟨none, some "technology", none⟩).params
      "topic" = true ∧
    (WorkerV3.gnewsRequest "ABCDE" ⟨none, some "technology", some "bitcoin"⟩).url =
      GNEWS_SEARCH_URL ∧
    hasParam
      (WorkerV3.gnewsRequest "ABCDE" ⟨none, some "technology", some "bitcoin"⟩).params
      "topic" = true ∧
    (Part000.gnewsRequest "ABCDE" ⟨none, some "technology", none⟩).url =
      GNEWS_API_URL ∧
    hasParam (Part000.gnewsRequest "ABCDE" ⟨none, some "technology", none⟩).params
      "q" = false ∧
    hasParam (Part000.gnewsRequest "ABCDE" ⟨none, some "technology", none⟩).params
      "topic" = true ∧
    (Part000.gnewsRequest "ABCDE" ⟨none, none, some "bitcoin"⟩).url =
      GNEWS_SEARCH_URL ∧
    hasParam (Part000.gnewsRequest "ABCDE" ⟨none, none, some "bitcoin"⟩).params
      "topic" = false ∧
    hasParam
      (Part000.gnewsRequest "ABCDE" ⟨none, some "technology", some "bitcoin"⟩).params
      "topic" = false := by
  decide

/-- C9: the Bing normalizer is a total function of the parsed payload;
every top-level field maps through unchanged, a missing `image`,
`image.thumbnail`, `thumbnail.contentUrl`, `provider` array, empty
`provider` array or missing first provider name resolves to an absent
image / the "Bing News" fallback, and a missing `value` array yields the
empty article list. -/
theorem bing_normalization_missing_fields :
    ∀ (item : BingItem) (payload : BingPayload),
      (WorkerV3.normalizeBingItem item).title = item.name ∧
      (WorkerV3.normalizeBingItem item).description = item.description ∧
      (WorkerV3.normalizeBingItem item).url = item.url ∧
      (WorkerV3.normalizeBingItem item).publishedAt = item.datePublished ∧
      (item.image = none → (WorkerV3.normalizeBingItem item).image = none) ∧
      (∀ img, item.image = some img → img.thumbnail = none →
        (WorkerV3.normalizeBingItem item).image = none) ∧
      (∀ img th, item.image = some img → img.thumbnail = some th →
        (WorkerV3.normalizeBingItem item).image = th.contentUrl) ∧
      (item.provider = none → (WorkerV3.normalizeBingItem item).source.name = "Bing News") ∧
      (item.provider = some [] → (WorkerV3.normalizeBingItem item).source.name = "Bing News") ∧
      (∀ p rest, item.provider = some (p :: rest) → p.name = none →
        (WorkerV3.normalizeBingItem item).source.name = "Bing News") ∧
      (payload.value = none → WorkerV3.bingArticles payload = []) ∧
      (∀ items, payload.value = some items →
        WorkerV3.bingArticles payload = items.map WorkerV3.normalizeBingItem) := by
  intro item payload
  refine ⟨rfl, rfl, rfl, rfl, ?_, ?_, ?_, ?_, ?_, ?_, ?_, ?_⟩
  · intro h; simp [WorkerV3.normalizeBingItem, h]
  · intro img h ht; simp [WorkerV3.normalizeBingItem, h, ht]
  · intro img th h ht; simp [WorkerV3.normalizeBingItem, h, ht]
  · intro h; simp [WorkerV3.normalizeBingItem, jsOrS, h]
  · intro h; simp [WorkerV3.normalizeBingItem, jsOrS, h]
  · intro p rest h hn; simp [WorkerV3.normalizeBingItem, jsOrS, h, hn]
  · intro h; simp [WorkerV3.bingArticles, h]
  · intro items h; simp [WorkerV3.bingArticles, h]

/-- Witness for C9: the fully-empty Bing item and the payload without a
`value` array normalize to an absent image, the "Bing News" source
fallback and the empty article list. -/
theorem bing_normalization_missing_fields_witness :
    (WorkerV3.normalizeBingItem itemAllMissing).image = none ∧
    (WorkerV3.normalizeBingItem itemAllMissing).source.name = "Bing News" ∧
    WorkerV3.bingArticles { value := none } = [] := by
  have h := bing_normalization_missing_fields itemAllMissing { value := none }
  exact ⟨h.2.2.2.2.1 rfl, h.2.2.2.2.2.2.2.1 rfl, h.2.2.2.2.2.2.2.2.2.2.1 rfl⟩

/-- C7: `buildResponse` (identical in all three editions) preserves the
provider's status and body, forces the wildcard CORS origin and the
allowed-methods header whatever the provider sent, removes the three
framing headers in any capitalization, and leaves every other header
untouched. -/
theorem buildResponse_header_rewrite :
    ∀ r : HttpResponse,
      (buildResponse r).status = r.status ∧
      (buildResponse r).body = r.body ∧
      headerGet (buildResponse r).headers "Access-Control-Allow-Origin" = some "*" ∧
      headerGet (buildResponse r).headers "Access-Control-Allow-Methods" =
        some "GET, HEAD, POST, OPTIONS" ∧
      headerGet (buildResponse r).headers "Content-Encoding" = none ∧
      headerGet (buildResponse r).headers "Content-Length" = none ∧
      headerGet (buildResponse r).headers "Transfer-Encoding" = none ∧
      (∀ k : String,
        lowerStr k ≠ "access-control-allow-origin" →
        lowerStr k ≠ "access-control-allow-methods" →
        lowerStr k ≠ "content-encoding" →
        lowerStr k ≠ "content-length" →
        lowerStr k ≠ "transfer-encoding" →
        headerGet (buildResponse r).headers k = headerGet r.headers k) := by
  intro r
  refine ⟨rfl, rfl, ?_, ?_, ?_, ?_, ?_, ?_⟩
  · show headerGet
      (headerDelete (headerDelete (headerDelete
        (headerSet (headerSet r.headers "Access-Control-Allow-Origin" "*")
          "Access-Control-Allow-Methods" "GET, HEAD, POST, OPTIONS")
        "Content-Encoding") "Content-Length") "Transfer-Encoding")
      "Access-Control-Allow-Origin" = some "*"
    rw [headerGet_delete_other _ _ _ (by decide), headerGet_delete_other _ _ _ (by decide),
      headerGet_delete_other _ _ _ (by decide), headerGet_set_other _ _ _ _ (by decide),
      headerGet_set_self]
  · show headerGet
      (headerDelete (headerDelete (headerDelete
        (headerSet (headerSet r.headers "Access-Control-Allow-Origin" "*")
          "Access-Control-Allow-Methods" "GET, HEAD, POST, OPTIONS")
        "Content-Encoding") "Content-Length") "Transfer-Encoding")
      "Access-Control-Allow-Methods" = some "GET, HEAD, POST, OPTIONS"
    rw [headerGet_delete_other _ _ _ (by decide), headerGet_delete_other _ _ _ (by decide),
      headerGet_delete_other _ _ _ (by decide), headerGet_set_self]
  · show headerGet
      (headerDelete (headerDelete (headerDelete
        (headerSet (headerSet r.headers "Access-Control-Allow-Origin" "*")
          "Access-Control-Allow-Methods" "GET, HEAD, POST, OPTIONS")
        "Content-Encoding") "Content-Length") "Transfer-Encoding")
      "Content-Encoding" = none
    rw [headerGet_delete_other _ _ _ (by decide), headerGet_delete_other _ _ _ (by decide),
      headerGet_delete_self]
  · show headerGet
      (headerDelete (headerDelete (headerDelete
        (headerSet (headerSet r.headers "Access-Control-Allow-Origin" "*")
          "Access-Control-Allow-Methods" "GET, HEAD, POST, OPTIONS")
        "Content-Encoding") "Content-Length") "Transfer-Encoding")
      "Content-Length" = none
    rw [headerGet_delete_other _ _ _ (by decide), headerGet_delete_self]
  · show headerGet
      (headerDelete (headerDelete (headerDelete
        (headerSet (headerSet r.headers "Access-Control-Allow-Origin" "*")
          "Access-Control-Allow-Methods" "GET, HEAD, POST, OPTIONS")
        "Content-Encoding") "Content-Length") "Transfer-Encoding")
      "Transfer-Encoding" = none
    rw [headerGet_delete_self]
  · intro k h1 h2 h3 h4 h5
    show headerGet
      (headerDelete (headerDelete (headerDelete
        (headerSet (headerSet r.headers "Access-Control-Allow-Origin" "*")
          "Access-Control-Allow-Methods" "GET, HEAD, POST, OPTIONS")
        "Content-Encoding") "Content-Length") "Transfer-Encoding")
      k = headerGet r.headers k
    rw [headerGet_delete_other _ _ _ h5, headerGet_delete_other _ _ _ h4,
      headerGet_delete_other _ _ _ h3, headerGet_set_other _ _ _ _ h2,
      headerGet_set_other _ _ _ _ h1]

/-- Witness for C7: a provider response carrying `Content-Encoding: gzip`,
its own CORS header and an unrelated header, after `buildResponse`. -/
theorem buildResponse_header_rewrite_witness :
    headerGet (buildResponse (respPlain 200)).headers "Access-Control-Allow-Origin" =
      some "*" ∧
    headerGet
      (buildResponse
        { respPlain 200 with
          headers := [("content-encoding", "gzip"),
                      ("access-control-allow-origin", "https://old.example"),
                      ("x-provider-tag", "alpha")] }).headers
      "Content-Encoding" = none ∧
    headerGet
      (buildResponse
        { respPlain 200 with
          headers := [("content-encoding", "gzip"),
                      ("access-control-allow-origin", "https://old.example"),
                      ("x-provider-tag", "alpha")] }).headers
      "X-Provider-Tag" =
      headerGet [("content-encoding", "gzip"),
                 ("access-control-allow-origin", "https://old.example"),
                 ("x-provider-tag", "alpha")] "X-Provider-Tag" := by
  refine ⟨(buildResponse_header_rewrite (respPlain 200)).2.2.1, ?_, ?_⟩
  · exact (buildResponse_header_rewrite
      { respPlain 200 with
        headers := [("content-encoding", "gzip"),
                    ("access-control-allow-origin", "https://old.example"),
                    ("x-provider-tag", "alpha")] }).2.2.2.2.1
  · exact (buildResponse_header_rewrite
      { respPlain 200 with
        headers := [("content-encoding", "gzip"),
                    ("access-control-allow-origin", "https://old.example"),
                    ("x-provider-tag", "alpha")] }).2.2.2.2.2.2.2
      "X-Provider-Tag" (by decide) (by decide) (by decide) (by decide) (by decide)

/-- C1: both orchestrators try their providers strictly in the fixed
priority order.  If the first provider's outcome is `Usable`, its response
is relayed immediately and no other provider is invoked; whenever a
provider fails and a next provider exists, that next provider is invoked. -/
theorem failover_tries_providers_in_order :
    ∀ (env : Env) (country topic query : Option String) (f : FetchImpl),
      (∀ s r, (WorkerV3.fetchNewsFromBing env ⟨country, topic, query⟩ f).1 =
          some (AttemptResult.usable s r) →
        WorkerV3.handleRequest env country topic query f =
          (some (buildResponse r), [Provider.bing])) ∧
      (∀ s m, (WorkerV3.fetchNewsFromBing env ⟨country, topic, query⟩ f).1 =
          some (AttemptResult.failed s m) →
        Provider.gnews ∈ (WorkerV3.handleRequest env country topic query f).2) ∧
      (∀ s m s' r',
        (WorkerV3.fetchNewsFromBing env ⟨country, topic, query⟩ f).1 =
          some (AttemptResult.failed s m) →
        (WorkerV3.fetchNewsFromGNews env ⟨country, topic, query⟩ f).1 =
          some (AttemptResult.usable s' r') →
        WorkerV3.handleRequest env country topic query f =
          (some (buildResponse r'), [Provider.bing, Provider.gnews])) ∧
      (∀ s m s' m',
        (WorkerV3.fetchNewsFromBing env ⟨country, topic, query⟩ f).1 =
          some (AttemptResult.failed s m) →
        (WorkerV3.fetchNewsFromGNews env ⟨country, topic, query⟩ f).1 =
          some (AttemptResult.failed s' m') →
        Provider.newsapi ∈ (WorkerV3.handleRequest env country topic query f).2) ∧
      (∀ s r, (Part000.fetchNewsFromGNews env ⟨country, topic, query⟩ f).1 =
          some (AttemptResult.usable s r) →
        Part000.handleRequest env country topic query f =
          (some (buildResponse r), [Provider.gnews])) ∧
      (∀ s m, (Part000.fetchNewsFromGNews env ⟨country, topic, query⟩ f).1 =
          some (AttemptResult.failed s m) →
        Provider.newsapi ∈ (Part000.handleRequest env country topic query f).2) := by
  intro env country topic query f
  refine ⟨?_, ?_, ?_, ?_, ?_, ?_⟩
  · intro s r h
    simp [WorkerV3.handleRequest, h]
  · intro s m h
    cases hg : (WorkerV3.fetchNewsFromGNews env ⟨country, topic, query⟩ f).1 with
    | none => simp [WorkerV3.handleRequest, h, hg]
    | some ar =>
      cases ar with
      | usable s' r' => simp [WorkerV3.handleRequest, h, hg]
      | failed s' m' =>
        cases hn : (WorkerV3.fetchNewsFromNewsAPI env ⟨country, topic, query⟩ f).1 with
        | none => simp [WorkerV3.handleRequest, h, hg, hn]
        | some ar' =>
          cases ar' with
          | usable s'' r'' => simp [WorkerV3.handleRequest, h, hg, hn]
          | failed s'' m'' => simp [WorkerV3.handleRequest, h, hg, hn]
  · intro s m s' r' h hg
    simp [WorkerV3.handleRequest, h, hg]
  · intro s m s' m' h hg
    cases hn : (WorkerV3.fetchNewsFromNewsAPI env ⟨country, topic, query⟩ f).1 with
    | none => simp [WorkerV3.handleRequest, h, hg, hn]
    | some ar' =>
      cases ar' with
      | usable s'' r'' => simp [WorkerV3.handleRequest, h, hg, hn]
      | failed s'' m'' => simp [WorkerV3.handleRequest, h, hg, hn]
  · intro s r h
    simp [Part000.handleRequest, h]
  · intro s m h
    cases hn : (Part000.fetchNewsFromNewsAPI env ⟨country, topic, query⟩ f).1 with
    | none => simp [Part000.handleRequest, h, hn]
    | some ar' =>
      cases ar' with
      | usable s'' r'' => simp [Part000.handleRequest, h, hn]
      | failed s'' m'' => simp [Part000.handleRequest, h, hn]

/-- Witness for C1: with every credential set, a Bing success on the
Triple edition relays Bing's constructed response and invokes nobody else,
while an all-429 transport invokes GNews and then NewsAPI. -/
theorem failover_tries_providers_in_order_witness :
    WorkerV3.handleRequest envAllKeys none none none fetchBingOk =
      (some (buildResponse respBingArticlesEmpty), [Provider.bing]) ∧
    Provider.gnews ∈ (WorkerV3.handleRequest envAllKeys none none none fetchAll429).2 ∧
    Provider.newsapi ∈ (WorkerV3.handleRequest envAllKeys none none none fetchAll429).2 ∧
    Provider.newsapi ∈ (Part000.handleRequest envAllKeys none none none fetchAll429).2 := by
  refine ⟨?_, ?_, ?_, ?_⟩
  · exact (failover_tries_providers_in_order envAllKeys none none none fetchBingOk).1
      200 respBingArticlesEmpty (by rfl)
  · exact (failover_tries_providers_in_order envAllKeys none none none fetchAll429).2.1
      429 (some "Bing News API 错误: Bing API failed with status 429") (by rfl)
  · exact (failover_tries_providers_in_order envAllKeys none none none
      fetchAll429).2.2.2.1 429
      (some "Bing News API 错误: Bing API failed with status 429")
      429 (some "GNews API 错误 (429)") (by rfl) (by rfl)
  · exact (failover_tries_providers_in_order envAllKeys none none none
      fetchAll429).2.2.2.2.2 429 (some "GNews API 错误 (429)") (by rfl)

/-- Counterexample for C2: with all three providers failing on an all-429
transport, the Triple edition's error body carries only NewsAPI's
diagnostic; the diagnostics Bing and GNews actually produced do not occur
in it as substrings. -/
theorem all_failed_error_drops_earlier_diagnostics :
    (WorkerV3.handleRequest envAllKeys none none none fetchAll429).1 =
      some (buildErrorResponse
        "所有 API 源均失败。Bing/GNews/News API 错误: News API 失败 (429)。" 503) ∧
    (WorkerV3.fetchNewsFromBing envAllKeys ⟨none, none, none⟩ fetchAll429).1 =
      some (AttemptResult.failed 429
        (some "Bing News API 错误: Bing API failed with status 429")) ∧
    (WorkerV3.fetchNewsFromGNews envAllKeys ⟨none, none, none⟩ fetchAll429).1 =
      some (AttemptResult.failed 429 (some "GNews API 错误 (429)")) ∧
    strContains "所有 API 源均失败。Bing/GNews/News API 错误: News API 失败 (429)。"
      "Bing News API 错误: Bing API failed with status 429" = false ∧
    strContains "所有 API 源均失败。Bing/GNews/News API 错误: News API 失败 (429)。"
      "GNews API 错误 (429)" = false := by
  refine ⟨by rfl, by rfl, by rfl, by decide, by decide⟩

/-- C2 (amended): when every provider of the Triple edition fails, the
error body's message is the fixed prefix naming all three sources followed
by the LAST provider's (NewsAPI's) diagnostic, which it therefore contains
as a substring; the earlier providers' diagnostics are not included. -/
theorem all_failed_error_carries_last_message :
    ∀ (env : Env) (country topic query : Option String) (f : FetchImpl)
      (sB sG sN : Nat) (mB mG mN : String),
      (WorkerV3.fetchNewsFromBing env ⟨country, topic, query⟩ f).1 =
        some (AttemptResult.failed sB (some mB)) →
      (WorkerV3.fetchNewsFromGNews env ⟨country, topic, query⟩ f).1 =
        some (AttemptResult.failed sG (some mG)) →
      (WorkerV3.fetchNewsFromNewsAPI env ⟨country, topic, query⟩ f).1 =
        some (AttemptResult.failed sN (some mN)) →
      (WorkerV3.handleRequest env country topic query f).1 =
        some (buildErrorResponse
          ("所有 API 源均失败。Bing/GNews/News API 错误: " ++ mN) 503) ∧
      strContains ("所有 API 源均失败。Bing/GNews/News API 错误: " ++ mN) mN = true := by
  intro env country topic query f sB sG sN mB mG mN hB hG hN
  constructor
  · simp [WorkerV3.handleRequest, hB, hG, hN, jsTemplateOpt]
  · exact strContains_append_right _ _

/-- Witness for C2 (amended): the all-403 transport with every credential
set. -/
theorem all_failed_error_carries_last_message_witness :
    (WorkerV3.handleRequest envAllKeys none none none fetchAll403).1 =
      some (buildErrorResponse
        ("所有 API 源均失败。Bing/GNews/News API 错误: " ++ "News API 失败 (403)。") 503) ∧
    strContains ("所有 API 源均失败。Bing/GNews/News API 错误: " ++ "News API 失败 (403)。")
      "News API 失败 (403)。" = true :=
  all_failed_error_carries_last_message envAllKeys none none none fetchAll403
    403 403 403 "Bing News API 错误: Bing API failed with status 403"
    "GNews API 错误 (403)" "News API 失败 (403)。" (by rfl) (by rfl) (by rfl)

/-- Counterexample for C3: with a valid GNews key, a rejecting transport
makes the `part_000` orchestrator end with no response at all — the GNews
adapter has no `try`/`catch`, so the transport exception reaches the
caller uncaught; the Triple edition's GNews adapter propagates it the same
way. -/
theorem gnews_transport_failure_propagates :
    (Part000.handleRequest envAllKeys none none none fetchReject).1 = none ∧
    (Part000.fetchNewsFromGNews envAllKeys ⟨none, none, none⟩ fetchReject).1 = none ∧
    (WorkerV3.fetchNewsFromGNews envAllKeys ⟨none, none, none⟩ fetchReject).1 = none := by
  exact ⟨rfl, rfl, rfl⟩

/-- C3 (amended): the Bing and NewsAPI adapters convert a transport
failure into `Failed` with status 503 and their transport diagnostic, but
none of the three GNews adapters catches it, so a GNews transport failure
propagates out of the adapter (and hence out of `handleRequest`)
uncaught. -/
theorem transport_failure_handling :
    ∀ (env : Env) (q : CanonicalQuery),
      (credentialMissing env.BING_NEWS_API_KEY = false →
        (WorkerV3.fetchNewsFromBing env q fetchReject).1 =
          some (AttemptResult.failed 503 (some "Bing News API 网络连接失败或超时。"))) ∧
      (credentialMissing env.NEWS_API_KEY = false →
        (Part000.fetchNewsFromNewsAPI env q fetchReject).1 =
          some (AttemptResult.failed 503 (some "News API 网络连接超时或 DNS 失败。")) ∧
        (WorkerV1.fetchNewsFromNewsAPI env q fetchReject).1 =
          some (AttemptResult.failed 503 (some "News API 网络连接超时或 DNS 失败。")) ∧
        (WorkerV3.fetchNewsFromNewsAPI env q fetchReject).1 =
          some (AttemptResult.failed 503 (some "News API 网络连接超时或 DNS 失败。"))) ∧
      (credentialMissing env.GNEWS_API_KEY = false →
        (Part000.fetchNewsFromGNews env q fetchReject).1 = none ∧
        (WorkerV3.fetchNewsFromGNews env q fetchReject).1 = none) ∧
      (∀ (ps : List (String × String)) (qo : Option String),
        (WorkerV1.fetchNewsFromGNews ps qo fetchReject).1 = none) := by
  intro env q
  refine ⟨?_, ?_, ?_, ?_⟩
  · intro h
    simp [WorkerV3.fetchNewsFromBing, h, fetchReject]
  · intro h
    refine ⟨?_, ?_, ?_⟩
    · simp [Part000.fetchNewsFromNewsAPI, h, fetchReject]
    · simp [WorkerV1.fetchNewsFromNewsAPI, h, fetchReject]
    · simp [WorkerV3.fetchNewsFromNewsAPI, h, fetchReject]
  · intro h
    exact ⟨by simp [Part000.fetchNewsFromGNews, h, fetchReject],
           by simp [WorkerV3.fetchNewsFromGNews, h, fetchReject]⟩
  · intro ps qo
    simp [WorkerV1.fetchNewsFromGNews, fetchReject]

/-- Witness for C3 (amended): all keys valid, every fetch rejecting. -/
theorem transport_failure_handling_witness :
    (WorkerV3.fetchNewsFromBing envAllKeys ⟨none, none, none⟩ fetchReject).1 =
      some (AttemptResult.failed 503 (some "Bing News API 网络连接失败或超时。")) ∧
    (WorkerV3.fetchNewsFromNewsAPI envAllKeys ⟨none, none, none⟩ fetchReject).1 =
      some (AttemptResult.failed 503 (some "News API 网络连接超时或 DNS 失败。")) ∧
    (WorkerV3.fetchNewsFromGNews envAllKeys ⟨none, none, none⟩ fetchReject).1 = none := by
  refine ⟨?_, ?_, ?_⟩
  · exact (transport_failure_handling envAllKeys ⟨none, none, none⟩).1 (by rfl)
  · exact ((transport_failure_handling envAllKeys ⟨none, none, none⟩).2.1 (by rfl)).2.2
  · exact ((transport_failure_handling envAllKeys ⟨none, none, none⟩).2.2.1 (by rfl)).2

/-- Counterexample for C6: the first document's GNews adapter takes no
credential at all — with no key configured anywhere it still issues one
outbound fetch and happily returns the provider response as `Usable`
instead of a configuration `Failed` with zero calls. -/
theorem v1_gnews_fetches_without_credential :
    (WorkerV1.fetchNewsFromGNews [] none fetchBingOk).2.length = 1 ∧
    (WorkerV1.fetchNewsFromGNews [] none fetchBingOk).1 =
      some (AttemptResult.usable 200 respBingOk) := by
  exact ⟨rfl, rfl⟩

/-- C6 (amended): every adapter that checks a credential — the `part_000`
GNews and NewsAPI adapters, the first document's NewsAPI adapter, and the
Triple edition's Bing, GNews and NewsAPI adapters — returns `Failed` with
its configuration-specific message and performs zero outbound fetch calls
whenever its credential is undefined or shorter than 5 characters; the
first document's GNews adapter takes no credential and always fetches. -/
theorem credential_gate_blocks_fetch :
    ∀ (env : Env) (q : CanonicalQuery) (f : FetchImpl),
      (credentialMissing env.GNEWS_API_KEY = true →
        Part000.fetchNewsFromGNews env q f =
          (some (AttemptResult.failed 500 (some "GNews API Key 未配置")), []) ∧
        WorkerV3.fetchNewsFromGNews env q f =
          (some (AttemptResult.failed 500 (some "GNews API Key 未配置")), [])) ∧
      (credentialMissing env.NEWS_API_KEY = true →
        Part000.fetchNewsFromNewsAPI env q f =
          (some (AttemptResult.failed 500 (some "News API Key 未配置")), []) ∧
        WorkerV1.fetchNewsFromNewsAPI env q f =
          (some (AttemptResult.failed 500 (some "News API Key 未配置")), []) ∧
        WorkerV3.fetchNewsFromNewsAPI env q f =
          (some (AttemptResult.failed 500 (some "News API Key 未配置")), [])) ∧
      (credentialMissing env.BING_NEWS_API_KEY = true →
        WorkerV3.fetchNewsFromBing env q f =
          (some (AttemptResult.failed 500 (some "Bing News API Key 未配置")), [])) := by
  intro env q f
  refine ⟨?_, ?_, ?_⟩
  · intro h
    exact ⟨by simp [Part000.fetchNewsFromGNews, h],
           by simp [WorkerV3.fetchNewsFromGNews, h]⟩
  · intro h
    exact ⟨by simp [Part000.fetchNewsFromNewsAPI, h],
           by simp [WorkerV1.fetchNewsFromNewsAPI, h],
           by simp [WorkerV3.fetchNewsFromNewsAPI, h]⟩
  · intro h
    simp [WorkerV3.fetchNewsFromBing, h]

/-- Witness for C6 (amended): no keys configured, transport available. -/
theorem credential_gate_blocks_fetch_witness :
    Part000.fetchNewsFromGNews envNoKeys ⟨none, none, none⟩ fetchBingOk =
      (some (AttemptResult.failed 500 (some "GNews API Key 未配置")), []) ∧
    WorkerV3.fetchNewsFromBing envNoKeys ⟨none, none, none⟩ fetchBingOk =
      (some (AttemptResult.failed 500 (some "Bing News API Key 未配置")), []) ∧
    WorkerV3.fetchNewsFromNewsAPI envNoKeys ⟨none, none, none⟩ fetchBingOk =
      (some (AttemptResult.failed 500 (some "News API Key 未配置")), []) := by
  refine ⟨?_, ?_, ?_⟩
  · exact ((credential_gate_blocks_fetch envNoKeys ⟨none, none, none⟩ fetchBingOk).1
      (by rfl)).1
  · exact (credential_gate_blocks_fetch envNoKeys ⟨none, none, none⟩ fetchBingOk).2.2
      (by rfl)
  · exact ((credential_gate_blocks_fetch envNoKeys ⟨none, none, none⟩ fetchBingOk).2.1
      (by rfl)).2.2

/-- Counterexample for C8: with NO provider holding a valid credential the
caller still receives status 503 — the adapters' internal status-500
configuration outcomes never reach the response, because both
orchestrators hardcode 503 into `buildErrorResponse`. -/
theorem no_credentials_yields_503_not_500 :
    ((WorkerV3.handleRequest envNoKeys none none none fetchBingOk).1.map
      (fun r => r.status)) = some 503 ∧
    ((Part000.handleRequest envNoKeys none none none fetchBingOk).1.map
      (fun r => r.status)) = some 503 := by
  exact ⟨rfl, rfl⟩

/-- C8 (amended): whenever every provider fails — for any reason,
including every credential being invalid — the caller receives HTTP
status 503 (never 500) with the JSON body shape
`errors: [ message ]`, in both final orchestrators. -/
theorem all_failed_status_always_503 :
    ∀ (env : Env) (country topic query : Option String) (f : FetchImpl),
      (∀ sB sG sN (mB mG : Option String) (mN : Option String),
        (WorkerV3.fetchNewsFromBing env ⟨country, topic, query⟩ f).1 =
          some (AttemptResult.failed sB mB) →
        (WorkerV3.fetchNewsFromGNews env ⟨country, topic, query⟩ f).1 =
          some (AttemptResult.failed sG mG) →
        (WorkerV3.fetchNewsFromNewsAPI env ⟨country, topic, query⟩ f).1 =
          some (AttemptResult.failed sN mN) →
        ∃ r, (WorkerV3.handleRequest env country topic query f).1 = some r ∧
          r.status = 503 ∧
          r.body = RespBody.errorsJson
            ["所有 API 源均失败。Bing/GNews/News API 错误: " ++ jsTemplateOpt mN]) ∧
      (∀ sG sN (mG : Option String) (mN : Option String),
        (Part000.fetchNewsFromGNews env ⟨country, topic, query⟩ f).1 =
          some (AttemptResult.failed sG mG) →
        (Part000.fetchNewsFromNewsAPI env ⟨country, topic, query⟩ f).1 =
          some (AttemptResult.failed sN mN) →
        ∃ r, (Part000.handleRequest env country topic query f).1 = some r ∧
          r.status = 503 ∧
          r.body = RespBody.errorsJson
            ["所有 API 源均失败。GNews/News API 错误: " ++ jsTemplateOpt mN]) := by
  intro env country topic query f
  constructor
  · intro sB sG sN mB mG mN hB hG hN
    refine ⟨buildErrorResponse
      ("所有 API 源均失败。Bing/GNews/News API 错误: " ++ jsTemplateOpt mN) 503, ?_, rfl, rfl⟩
    simp [WorkerV3.handleRequest, hB, hG, hN]
  · intro sG sN mG mN hG hN
    refine ⟨buildErrorResponse
      ("所有 API 源均失败。GNews/News API 错误: " ++ jsTemplateOpt mN) 503, ?_, rfl, rfl⟩
    simp [Part000.handleRequest, hG, hN]

/-- Witness for C8 (amended): no provider has a valid credential; the
Triple edition still answers 503. -/
theorem all_failed_status_always_503_witness :
    ∃ r, (WorkerV3.handleRequest envNoKeys none none none fetchBingOk).1 = some r ∧
      r.status = 503 ∧
      r.body = RespBody.errorsJson
        ["所有 API 源均失败。Bing/GNews/News API 错误: " ++ jsTemplateOpt (some "News API Key 未配置")] :=
  (all_failed_status_always_503 envNoKeys none none none fetchBingOk).1
    500 500 500 (some "Bing News API Key 未配置") (some "GNews API Key 未配置")
    (some "News API Key 未配置") (by rfl) (by rfl) (by rfl)

theorem buildErrorResponse_cors (msg : String) (st : Nat) :
    headerGet (buildErrorResponse msg st).headers "Access-Control-Allow-Origin" =
      some "*" := by
  rfl

/-- C10: on the all-failed path of either final orchestrator, the error
response itself carries `Access-Control-Allow-Origin: *` and its `errors`
array holds exactly one element. -/
theorem error_path_cors_and_single_error :
    ∀ (env : Env) (country topic query : Option String) (f : FetchImpl),
      (∀ sB sG sN (mB mG mN : Option String),
        (WorkerV3.fetchNewsFromBing env ⟨country, topic, query⟩ f).1 =
          some (AttemptResult.failed sB mB) →
        (WorkerV3.fetchNewsFromGNews env ⟨country, topic, query⟩ f).1 =
          some (AttemptResult.failed sG mG) →
        (WorkerV3.fetchNewsFromNewsAPI env ⟨country, topic, query⟩ f).1 =
          some (AttemptResult.failed sN mN) →
        ∃ r, (WorkerV3.handleRequest env country topic query f).1 = some r ∧
          headerGet r.headers "Access-Control-Allow-Origin" = some "*" ∧
          ∃ msg, r.body = RespBody.errorsJson [msg]) ∧
      (∀ sG sN (mG mN : Option String),
        (Part000.fetchNewsFromGNews env ⟨country, topic, query⟩ f).1 =
          some (AttemptResult.failed sG mG) →
        (Part000.fetchNewsFromNewsAPI env ⟨country, topic, query⟩ f).1 =
          some (AttemptResult.failed sN mN) →
        ∃ r, (Part000.handleRequest env country topic query f).1 = some r ∧
          headerGet r.headers "Access-Control-Allow-Origin" = some "*" ∧
          ∃ msg, r.body = RespBody.errorsJson [msg]) := by
  intro env country topic query f
  constructor
  · intro sB sG sN mB mG mN hB hG hN
    refine ⟨buildErrorResponse
      ("所有 API 源均失败。Bing/GNews/News API 错误: " ++ jsTemplateOpt mN) 503,
      ?_, buildErrorResponse_cors _ _, ⟨_, rfl⟩⟩
    simp [WorkerV3.handleRequest, hB, hG, hN]
  · intro sG sN mG mN hG hN
    refine ⟨buildErrorResponse
      ("所有 API 源均失败。GNews/News API 错误: " ++ jsTemplateOpt mN) 503,
      ?_, buildErrorResponse_cors _ _, ⟨_, rfl⟩⟩
    simp [Part000.handleRequest, hG, hN]

/-- Witness for C10: all-429 transport with every credential set. -/
theorem error_path_cors_and_single_error_witness :
    ∃ r, (Part000.handleRequest envAllKeys none none none fetchAll429).1 = some r ∧
      headerGet r.headers "Access-Control-Allow-Origin" = some "*" ∧
      ∃ msg, r.body = RespBody.errorsJson [msg] :=
  (error_path_cors_and_single_error envAllKeys none none none fetchAll429).2
    429 429 (some "GNews API 错误 (429)") (some "News API 失败 (429)。")
    (by rfl) (by rfl)

end GlobalNews
